import Mathlib

/-
Shallow embedding of the repository's two source files:
  src/core/lib/security/security_connector/tls/spiffe_security_connector.cc
  src/core/lib/transport/connectivity_state.cc

Machine-level details that the claims do not touch (reference counting of the
TSI factory objects, the pollset/exec-ctx plumbing, logging) are abstracted:
the handshaker factory is an opaque identifier, external collaborators
(the credential-reload capability, the server-authorization-check capability,
the TSI factory constructors, grpc_ssl_check_alpn) are parameters describing
their observable behavior for the single invocation the code performs, and a
GPR_ASSERT failure (process abort) is the `none` outcome of an `Option`.
-/

/-- grpc_status_code (grpc/status.h). -/
inductive grpc_status_code where
  | ok
  | cancelled
  | unknown
  | invalid_argument
  | deadline_exceeded
  | not_found
  | already_exists
  | permission_denied
  | resource_exhausted
  | failed_precondition
  | aborted
  | out_of_range
  | unimplemented
  | internal
  | unavailable
  | data_loss
  | unauthenticated
deriving DecidableEq, Repr

/-- grpc_ssl_certificate_config_reload_status (UNCHANGED / NEW / FAIL). -/
inductive grpc_ssl_certificate_config_reload_status where
  | unchanged
  | new
  | fail
deriving DecidableEq, Repr

/-- grpc_security_status (GRPC_SECURITY_OK / GRPC_SECURITY_ERROR). -/
inductive grpc_security_status where
  | ok
  | error
deriving DecidableEq, Repr

/-- One (private_key, cert_chain) entry of the key-materials list. -/
structure PemKeyCertPair where
  private_key : String
  cert_chain : String
deriving DecidableEq, Repr

/-- grpc_tls_key_materials_config: root certs plus the ordered cert-pair list. -/
structure grpc_tls_key_materials_config where
  pem_root_certs : Option String
  pem_key_cert_pair_list : List PemKeyCertPair
deriving DecidableEq, Repr

/-- Observable behavior of one invocation of a credential-reload capability's
Schedule call on a given store: whether it signals asynchronous completion
(Schedule returns nonzero), and — for a synchronous completion — the status and
error details it leaves in the reload arg, the store contents it leaves behind
(the capability holds the store handle and may mutate it), and whether it
installed a destroy_context hook on the arg. On the asynchronous path the
capability has not completed when Schedule returns, so the store is modelled as
still holding its entry contents at the point TlsFetchKeyMaterials returns. -/
structure CredentialReloadBehavior where
  completes_async : Bool
  status : grpc_ssl_certificate_config_reload_status
  error_details : Option String
  new_materials : grpc_tls_key_materials_config
  has_destroy_context : Bool

/-- A credential-reload capability: its behavior may depend on the store it is
handed. -/
abbrev grpc_tls_credential_reload_config : Type :=
  grpc_tls_key_materials_config → CredentialReloadBehavior

/-- Result of TlsFetchKeyMaterials: the returned grpc_status_code, the store
contents on return, the final value of the reload_status out-parameter, and
resource-handling facts: whether a reload arg was allocated and Schedule was
called, whether the arg was released (gpr_free of error_details + Delete), and
whether the arg's destroy_context hook was invoked. -/
structure TlsFetchResult where
  status : grpc_status_code
  key_materials : grpc_tls_key_materials_config
  reload_status : grpc_ssl_certificate_config_reload_status
  reload_scheduled : Bool
  arg_released : Bool
  destroy_context_invoked : Bool
deriving Repr

/-- TlsFetchKeyMaterials (spiffe_security_connector.cc lines 66-113).
`reload_status` is the value the caller's out-parameter holds at entry; the
result's `reload_status` field is its value on return (the code writes it only
on the synchronous-completion path). -/
def TlsFetchKeyMaterials
    (key_materials_config : grpc_tls_key_materials_config)
    (credential_reload_config : Option grpc_tls_credential_reload_config)
    (reload_status : grpc_ssl_certificate_config_reload_status) : TlsFetchResult :=
  let is_key_materials_empty := key_materials_config.pem_key_cert_pair_list.isEmpty
  if credential_reload_config.isNone && is_key_materials_empty then
    { status := .failed_precondition
      key_materials := key_materials_config
      reload_status := reload_status
      reload_scheduled := false
      arg_released := false
      destroy_context_invoked := false }
  else
    match credential_reload_config with
    | none =>
      { status := .ok
        key_materials := key_materials_config
        reload_status := reload_status
        reload_scheduled := false
        arg_released := false
        destroy_context_invoked := false }
    | some config =>
      let arg := config key_materials_config
      if arg.completes_async then
        -- "Async credential reload is unsupported now."
        { status := if is_key_materials_empty then .unimplemented else .ok
          key_materials := key_materials_config
          reload_status := reload_status
          reload_scheduled := true
          arg_released := true
          destroy_context_invoked := arg.has_destroy_context }
      else
        let status : grpc_status_code :=
          if arg.status = .unchanged then .ok
          else if arg.status = .fail then
            (if is_key_materials_empty then .internal else .ok)
          else .ok
        { status := status
          key_materials := arg.new_materials
          reload_status := arg.status
          reload_scheduled := true
          arg_released := true
          destroy_context_invoked := arg.has_destroy_context }

/-- Connector state relevant to the factory-lifecycle claims: the owned
key-materials store, the current handshaker factory (an opaque identifier,
`none` when no factory is held), and a counter supplying fresh factory
identities. -/
structure ConnectorState where
  key_materials_config : grpc_tls_key_materials_config
  handshaker_factory : Option Nat
  next_factory_id : Nat
deriving DecidableEq, Repr

/-- Result of a factory-lifecycle operation: the grpc_security_status it
returns, the connector state after the call, whether a previously held factory
was unref'd during the call, and how many factory constructions were
performed. -/
structure FactoryOpResult where
  status : grpc_security_status
  conn : ConnectorState
  destroyed_old : Bool
  builds : Nat
deriving DecidableEq, Repr

namespace SpiffeChannelSecurityConnector

/-- SpiffeChannelSecurityConnector::ReplaceHandshakerFactory (lines 275-290):
unref the existing factory if any, GPR_ASSERT the cert-pair list is non-empty
(`none` = assertion failure / abort), then build a fresh factory from the
store. Success of the external grpc_ssl_tsi_client_handshaker_factory_init is
the parameter `factory_init_ok`; on its failure the connector is left with no
factory. -/
def ReplaceHandshakerFactory (c : ConnectorState) (factory_init_ok : Bool) :
    Option FactoryOpResult :=
  let destroyed := c.handshaker_factory.isSome
  let c1 : ConnectorState := { c with handshaker_factory := none }
  if c1.key_materials_config.pem_key_cert_pair_list.isEmpty then
    none
  else if factory_init_ok then
    some { status := .ok
           conn := { c1 with handshaker_factory := some c1.next_factory_id
                             next_factory_id := c1.next_factory_id + 1 }
           destroyed_old := destroyed
           builds := 1 }
  else
    some { status := .error, conn := c1, destroyed_old := destroyed, builds := 1 }

/-- SpiffeChannelSecurityConnector::InitializeHandshakerFactory (lines
292-317): copy the key-materials config from the credentials options into the
store when present, run TlsFetchKeyMaterials with the out-parameter initialized
to UNCHANGED, fail with GRPC_SECURITY_ERROR if the fetch did not return OK, and
otherwise build the factory via ReplaceHandshakerFactory. -/
def InitializeHandshakerFactory
    (options_key_materials : Option grpc_tls_key_materials_config)
    (c : ConnectorState)
    (credential_reload_config : Option grpc_tls_credential_reload_config)
    (factory_init_ok : Bool) : Option FactoryOpResult :=
  let c0 : ConnectorState :=
    match options_key_materials with
    | some km => { c with key_materials_config := km }
    | none => c
  let fetch :=
    TlsFetchKeyMaterials c0.key_materials_config credential_reload_config .unchanged
  let c1 : ConnectorState := { c0 with key_materials_config := fetch.key_materials }
  if fetch.status ≠ .ok then
    some { status := .error, conn := c1, destroyed_old := false, builds := 0 }
  else
    ReplaceHandshakerFactory c1 factory_init_ok

/-- SpiffeChannelSecurityConnector::RefreshHandshakerFactory (lines 319-336):
run TlsFetchKeyMaterials with the out-parameter initialized to UNCHANGED; on a
non-OK fetch return GRPC_SECURITY_ERROR; if the resulting reload status is not
NEW, reuse the existing factory; otherwise rebuild via
ReplaceHandshakerFactory. -/
def RefreshHandshakerFactory (c : ConnectorState)
    (credential_reload_config : Option grpc_tls_credential_reload_config)
    (factory_init_ok : Bool) : Option FactoryOpResult :=
  let fetch :=
    TlsFetchKeyMaterials c.key_materials_config credential_reload_config .unchanged
  let c1 : ConnectorState := { c with key_materials_config := fetch.key_materials }
  if fetch.status ≠ .ok then
    some { status := .error, conn := c1, destroyed_old := false, builds := 0 }
  else if fetch.reload_status ≠ .new then
    -- Re-use existing handshaker factory.
    some { status := .ok, conn := c1, destroyed_old := false, builds := 0 }
  else
    ReplaceHandshakerFactory c1 factory_init_ok

end SpiffeChannelSecurityConnector

namespace SpiffeServerSecurityConnector

/-- SpiffeServerSecurityConnector::ReplaceHandshakerFactory (lines 477-497):
same shape as the client variant; the external factory constructor
(grpc_ssl_tsi_server_handshaker_factory_init, which additionally receives the
cert request type and no session cache) is again abstracted by
`factory_init_ok`. -/
def ReplaceHandshakerFactory (c : ConnectorState) (factory_init_ok : Bool) :
    Option FactoryOpResult :=
  let destroyed := c.handshaker_factory.isSome
  let c1 : ConnectorState := { c with handshaker_factory := none }
  if c1.key_materials_config.pem_key_cert_pair_list.isEmpty then
    none
  else if factory_init_ok then
    some { status := .ok
           conn := { c1 with handshaker_factory := some c1.next_factory_id
                             next_factory_id := c1.next_factory_id + 1 }
           destroyed_old := destroyed
           builds := 1 }
  else
    some { status := .error, conn := c1, destroyed_old := destroyed, builds := 1 }

/-- SpiffeServerSecurityConnector::InitializeHandshakerFactory (lines
499-522). -/
def InitializeHandshakerFactory
    (options_key_materials : Option grpc_tls_key_materials_config)
    (c : ConnectorState)
    (credential_reload_config : Option grpc_tls_credential_reload_config)
    (factory_init_ok : Bool) : Option FactoryOpResult :=
  let c0 : ConnectorState :=
    match options_key_materials with
    | some km => { c with key_materials_config := km }
    | none => c
  let fetch :=
    TlsFetchKeyMaterials c0.key_materials_config credential_reload_config .unchanged
  let c1 : ConnectorState := { c0 with key_materials_config := fetch.key_materials }
  if fetch.status ≠ .ok then
    some { status := .error, conn := c1, destroyed_old := false, builds := 0 }
  else
    ReplaceHandshakerFactory c1 factory_init_ok

/-- SpiffeServerSecurityConnector::RefreshHandshakerFactory (lines 524-540). -/
def RefreshHandshakerFactory (c : ConnectorState)
    (credential_reload_config : Option grpc_tls_credential_reload_config)
    (factory_init_ok : Bool) : Option FactoryOpResult :=
  let fetch :=
    TlsFetchKeyMaterials c.key_materials_config credential_reload_config .unchanged
  let c1 : ConnectorState := { c with key_materials_config := fetch.key_materials }
  if fetch.status ≠ .ok then
    some { status := .error, conn := c1, destroyed_old := false, builds := 0 }
  else if fetch.reload_status ≠ .new then
    -- At this point, we should have key materials populated.
    some { status := .ok, conn := c1, destroyed_old := false, builds := 0 }
  else
    ReplaceHandshakerFactory c1 factory_init_ok

end SpiffeServerSecurityConnector

/-- grpc_connectivity_state. -/
inductive grpc_connectivity_state where
  | idle
  | connecting
  | ready
  | transient_failure
  | shutdown
deriving DecidableEq, Repr

/-- ConnectivityStateTracker state relevant to the claims: the stored
connectivity state and the watcher registry. Watchers are opaque identities
(`Nat`); the source keys its map by watcher pointer, modelled here as the
registration list. -/
structure ConnectivityStateTracker where
  state : grpc_connectivity_state
  watchers : List Nat
deriving DecidableEq, Repr

namespace ConnectivityStateTracker

/-- ConnectivityStateTracker::SetState (connectivity_state.cc lines 146-168).
Returns the tracker after the call together with the list of
(watcher, notified-state) notifications delivered, in registry order. The
`reason` argument feeds only the trace log in the source and is ignored. -/
def SetState (t : ConnectivityStateTracker) (state : grpc_connectivity_state)
    (reason : String) :
    ConnectivityStateTracker × List (Nat × grpc_connectivity_state) :=
  let current_state := t.state
  if state = current_state then (t, [])
  else
    let notifications := t.watchers.map (fun w => (w, state))
    ({ state := state
       watchers := if state = .shutdown then [] else t.watchers },
     notifications)

/-- ConnectivityStateTracker::AddWatcher (lines 113-135). Returns the tracker
after the call and the catch-up notifications delivered (at most one). -/
def AddWatcher (t : ConnectivityStateTracker)
    (initial_state : grpc_connectivity_state) (watcher : Nat) :
    ConnectivityStateTracker × List (Nat × grpc_connectivity_state) :=
  let current_state := t.state
  let notifications :=
    if initial_state ≠ current_state then [(watcher, current_state)] else []
  -- If we're in state SHUTDOWN, don't add the watcher, so that it will
  -- be orphaned immediately.
  if current_state ≠ .shutdown then
    ({ t with watchers := t.watchers ++ [watcher] }, notifications)
  else
    (t, notifications)

end ConnectivityStateTracker

/-- The fields of grpc_tls_server_authorization_check_arg that
ProcessServerAuthorizationCheckResult reads. `error_details` is the C string
the capability stored (passed to gpr_asprintf's %s). -/
structure grpc_tls_server_authorization_check_arg where
  status : grpc_status_code
  success : Bool
  error_details : String
deriving DecidableEq, Repr

namespace SpiffeChannelSecurityConnector

/-- SpiffeChannelSecurityConnector::ProcessServerAuthorizationCheckResult
(lines 348-378): maps a completed check arg to the grpc_error delivered to the
completion closure (`none` = GRPC_ERROR_NONE, `some msg` = an error created
from msg). -/
def ProcessServerAuthorizationCheckResult
    (arg : grpc_tls_server_authorization_check_arg) : Option String :=
  if arg.status = .cancelled then
    some ("Server authorization check is cancelled by the caller with error: "
      ++ arg.error_details)
  else if arg.status = .ok then
    if !arg.success then
      some ("Server authorization check failed with error: " ++ arg.error_details)
    else
      none
  else
    some ("Server authorization check did not finish correctly with error: "
      ++ arg.error_details)

/-- SpiffeChannelSecurityConnector::ServerAuthorizationCheckDone (lines
338-346): the asynchronous completion callback; the error it schedules on the
stored on_peer_checked closure. -/
def ServerAuthorizationCheckDone
    (arg : grpc_tls_server_authorization_check_arg) : Option String :=
  ProcessServerAuthorizationCheckResult arg

end SpiffeChannelSecurityConnector

/-- The peer facts check_peer consults: the outcome of the external
grpc_ssl_check_alpn call (some error message, or none on success) and the
TSI_X509_PEM_CERT_PROPERTY value when the peer carries one. -/
structure tsi_peer where
  alpn_error : Option String
  pem_cert : Option String
deriving DecidableEq, Repr

/-- Observable behavior of one invocation of a server-authorization-check
capability's Schedule call: either it signals asynchronous completion
(nonzero return) or it completes synchronously leaving the given result fields
in the check arg. -/
inductive ServerAuthorizationCheckBehavior where
  | async
  | sync (arg : grpc_tls_server_authorization_check_arg)
deriving DecidableEq, Repr

/-- Observable outcome of one check_peer call: the runs of the on_peer_checked
closure performed during the call (each with the error it carried), whether
the authorization-check capability's Schedule was invoked, and whether
tsi_peer_destruct ran. -/
structure CheckPeerResult where
  callback_runs : List (Option String)
  capability_invoked : Bool
  peer_destructed : Bool
deriving DecidableEq, Repr

namespace SpiffeChannelSecurityConnector

/-- SpiffeChannelSecurityConnector::check_peer (lines 166-218). The
server-authorization-check capability configured on the credentials (if any)
is the second argument. On the asynchronous path the callback is not run
inside the call (the capability fires it later through
ServerAuthorizationCheckDone). -/
def check_peer (peer : tsi_peer)
    (server_authorization_check_config : Option ServerAuthorizationCheckBehavior) :
    CheckPeerResult :=
  match peer.alpn_error with
  | some e =>
    { callback_runs := [some e], capability_invoked := false, peer_destructed := true }
  | none =>
    match server_authorization_check_config with
    | none =>
      { callback_runs := [none], capability_invoked := false, peer_destructed := true }
    | some behavior =>
      match peer.pem_cert with
      | none =>
        { callback_runs := [some "Cannot check peer: missing pem cert property."]
          capability_invoked := false
          peer_destructed := true }
      | some _ =>
        match behavior with
        | .async =>
          { callback_runs := [], capability_invoked := true, peer_destructed := true }
        | .sync arg =>
          { callback_runs := [ProcessServerAuthorizationCheckResult arg]
            capability_invoked := true
            peer_destructed := true }

end SpiffeChannelSecurityConnector

/-- A reload capability that completes synchronously with status UNCHANGED and
leaves the store exactly as it found it (the behavior of a well-formed
capability that observed no change). -/
def reload_unchanged_noop : grpc_tls_credential_reload_config :=
  fun km =>
    { completes_async := false
      status := .unchanged
      error_details := none
      new_materials := km
      has_destroy_context := false }

/-- An empty key-materials store. -/
def empty_key_materials : grpc_tls_key_materials_config :=
  { pem_root_certs := none, pem_key_cert_pair_list := [] }

/-- A one-entry key-materials store used by concrete witnesses. -/
def sample_key_materials : grpc_tls_key_materials_config :=
  { pem_root_certs := some "ROOT"
    pem_key_cert_pair_list := [{ private_key := "KEY", cert_chain := "CERT" }] }

/-- A reload capability that completes synchronously with status NEW and
installs fresh one-entry material. -/
def reload_new_sample : grpc_tls_credential_reload_config :=
  fun _ =>
    { completes_async := false
      status := .new
      error_details := none
      new_materials := sample_key_materials
      has_destroy_context := true }

/-- A reload capability that signals asynchronous completion. -/
def reload_async_sample : grpc_tls_credential_reload_config :=
  fun _ =>
    { completes_async := true
      status := .unchanged
      error_details := none
      new_materials := empty_key_materials
      has_destroy_context := true }

/-- A reload capability that completes synchronously with status FAIL, leaving
the store as it found it. -/
def reload_fail_sample : grpc_tls_credential_reload_config :=
  fun km =>
    { completes_async := false
      status := .fail
      error_details := some "boom"
      new_materials := km
      has_destroy_context := true }

/-! Helper lemmas shared by the claim theorems. -/

/-- Evaluation of TlsFetchKeyMaterials when the capability signals
asynchronous completion. -/
lemma tlsFetch_async_eq (km : grpc_tls_key_materials_config)
    (f : grpc_tls_credential_reload_config)
    (rs : grpc_ssl_certificate_config_reload_status)
    (h : (f km).completes_async = true) :
    TlsFetchKeyMaterials km (some f) rs =
      { status := if km.pem_key_cert_pair_list.isEmpty then .unimplemented else .ok
        key_materials := km
        reload_status := rs
        reload_scheduled := true
        arg_released := true
        destroy_context_invoked := (f km).has_destroy_context } := by
  simp [TlsFetchKeyMaterials, h]

/-- Evaluation of TlsFetchKeyMaterials when the capability completes
synchronously. -/
lemma tlsFetch_sync_eq (km : grpc_tls_key_materials_config)
    (f : grpc_tls_credential_reload_config)
    (rs : grpc_ssl_certificate_config_reload_status)
    (h : (f km).completes_async = false) :
    TlsFetchKeyMaterials km (some f) rs =
      { status :=
          if (f km).status = .unchanged then .ok
          else if (f km).status = .fail then
            (if km.pem_key_cert_pair_list.isEmpty then .internal else .ok)
          else .ok
        key_materials := (f km).new_materials
        reload_status := (f km).status
        reload_scheduled := true
        arg_released := true
        destroy_context_invoked := (f km).has_destroy_context } := by
  simp [TlsFetchKeyMaterials, h]

/-- The client RefreshHandshakerFactory reuses the existing factory whenever
the fetch succeeds with a reload status other than NEW. -/
lemma refresh_reuse (c : ConnectorState)
    (cfg : Option grpc_tls_credential_reload_config) (b : Bool)
    (hok : (TlsFetchKeyMaterials c.key_materials_config cfg .unchanged).status = .ok)
    (hnew : (TlsFetchKeyMaterials c.key_materials_config cfg .unchanged).reload_status ≠ .new) :
    SpiffeChannelSecurityConnector.RefreshHandshakerFactory c cfg b =
      some { status := .ok
             conn := { c with key_materials_config :=
               (TlsFetchKeyMaterials c.key_materials_config cfg .unchanged).key_materials }
             destroyed_old := false
             builds := 0 } := by
  simp [SpiffeChannelSecurityConnector.RefreshHandshakerFactory, hok, hnew]

/-- The server RefreshHandshakerFactory coincides with the client one (the
source bodies are identical in every modelled aspect). -/
lemma server_refresh_eq_client (c : ConnectorState)
    (cfg : Option grpc_tls_credential_reload_config) (b : Bool) :
    SpiffeServerSecurityConnector.RefreshHandshakerFactory c cfg b =
      SpiffeChannelSecurityConnector.RefreshHandshakerFactory c cfg b := rfl

/-- Counting a pairing map: the pair (w, s) occurs in l.map (·, s) as often as
w occurs in l. -/
lemma count_map_pair (l : List Nat) (s : grpc_connectivity_state) (w : Nat) :
    (l.map (fun x => (x, s))).count (w, s) = l.count w := by
  induction l with
  | nil => simp
  | cons a l ih => simp [List.count_cons, Prod.ext_iff, ih]

/-- C1: the authorization-check result interpretation is a pure function of
(status, success, error_details) — the check-arg structure carries exactly
those fields — and yields: status OK with success true, no error; status OK
with success false, an error whose message contains error_details; status
CANCELLED, an error (whose message contains error_details); any other status,
a "did not finish correctly" error. The same routine
ProcessServerAuthorizationCheckResult is run by the synchronous path inside
check_peer and by the asynchronous completion callback
ServerAuthorizationCheckDone, so both paths produce identical results for the
same inputs. -/
theorem auth_check_interpretation
    (arg : grpc_tls_server_authorization_check_arg) :
    (arg.status = .ok → arg.success = true →
      SpiffeChannelSecurityConnector.ProcessServerAuthorizationCheckResult arg = none) ∧
    (arg.status = .ok → arg.success = false →
      ∃ p, SpiffeChannelSecurityConnector.ProcessServerAuthorizationCheckResult arg
        = some (p ++ arg.error_details)) ∧
    (arg.status = .cancelled →
      ∃ p, SpiffeChannelSecurityConnector.ProcessServerAuthorizationCheckResult arg
        = some (p ++ arg.error_details)) ∧
    (arg.status ≠ .ok → arg.status ≠ .cancelled →
      SpiffeChannelSecurityConnector.ProcessServerAuthorizationCheckResult arg
        = some ("Server authorization check did not finish correctly with error: "
            ++ arg.error_details)) ∧
    (SpiffeChannelSecurityConnector.ServerAuthorizationCheckDone arg
      = SpiffeChannelSecurityConnector.ProcessServerAuthorizationCheckResult arg) ∧
    (∀ pem : String,
      SpiffeChannelSecurityConnector.check_peer
          { alpn_error := none, pem_cert := some pem } (some (.sync arg))
        = { callback_runs :=
              [SpiffeChannelSecurityConnector.ProcessServerAuthorizationCheckResult arg]
            capability_invoked := true
            peer_destructed := true }) := by
  refine ⟨?_, ?_, ?_, ?_, rfl, fun pem => rfl⟩
  · intro h hs
    simp [SpiffeChannelSecurityConnector.ProcessServerAuthorizationCheckResult, h, hs]
  · intro h hs
    refine ⟨"Server authorization check failed with error: ", ?_⟩
    simp [SpiffeChannelSecurityConnector.ProcessServerAuthorizationCheckResult, h, hs]
  · intro h
    refine ⟨"Server authorization check is cancelled by the caller with error: ", ?_⟩
    simp [SpiffeChannelSecurityConnector.ProcessServerAuthorizationCheckResult, h]
  · intro h1 h2
    simp [SpiffeChannelSecurityConnector.ProcessServerAuthorizationCheckResult, h1, h2]

/-- C1 witness: concrete application at (OK, success = false, "denied"). -/
theorem auth_check_interpretation_witness :
    ∃ p, SpiffeChannelSecurityConnector.ProcessServerAuthorizationCheckResult
      { status := .ok, success := false, error_details := "denied" }
        = some (p ++ "denied") :=
  (auth_check_interpretation
    { status := .ok, success := false, error_details := "denied" }).2.1 rfl rfl

/-- C7: AddWatcher delivers a catch-up notification carrying the current state
exactly when the initial-state guess differs from the current state (one
notification, none otherwise), and registers the watcher exactly when the
current state is not SHUTDOWN. -/
theorem add_watcher_catchup_and_registration
    (t : ConnectivityStateTracker) (initial_state : grpc_connectivity_state)
    (w : Nat) :
    ConnectivityStateTracker.AddWatcher t initial_state w =
      ({ state := t.state
         watchers := if t.state = .shutdown then t.watchers else t.watchers ++ [w] },
       if initial_state = t.state then [] else [(w, t.state)]) := by
  obtain ⟨st, ws⟩ := t
  by_cases h1 : initial_state = st <;> by_cases h2 : st = .shutdown <;>
    simp_all [ConnectivityStateTracker.AddWatcher]

/-- C8: when an authorization-check capability is configured and check_peer
receives a peer that passes the ALPN check but carries no PEM certificate
property, the completion callback runs exactly once with the
"missing pem cert property" error, the capability's Schedule is never invoked,
and the peer identity is destroyed. -/
theorem check_peer_missing_pem_cert_property
    (behavior : ServerAuthorizationCheckBehavior) :
    SpiffeChannelSecurityConnector.check_peer
        { alpn_error := none, pem_cert := none } (some behavior) =
      { callback_runs := [some "Cannot check peer: missing pem cert property."]
        capability_invoked := false
        peer_destructed := true } := rfl

/-- C3: SetState(newState, reason) is a no-op when newState equals the current
state (tracker unchanged, no notification); otherwise the stored state becomes
newState, every currently-registered watcher is notified exactly once of
newState (and of nothing else — the reason is not delivered to watchers: the
call's outcome is independent of it), and the watcher registry is cleared
after notification exactly when newState is SHUTDOWN. -/
theorem set_state_spec (t : ConnectivityStateTracker)
    (s : grpc_connectivity_state) (reason : String) :
    (s = t.state → ConnectivityStateTracker.SetState t s reason = (t, [])) ∧
    (s ≠ t.state →
      (ConnectivityStateTracker.SetState t s reason).1.state = s ∧
      (ConnectivityStateTracker.SetState t s reason).2
        = t.watchers.map (fun w => (w, s)) ∧
      (∀ w : Nat, ((ConnectivityStateTracker.SetState t s reason).2).count (w, s)
        = t.watchers.count w) ∧
      (∀ (w : Nat) (st : grpc_connectivity_state),
        (w, st) ∈ (ConnectivityStateTracker.SetState t s reason).2 → st = s) ∧
      (ConnectivityStateTracker.SetState t s reason).1.watchers
        = (if s = .shutdown then [] else t.watchers)) ∧
    (∀ reason2 : String,
      ConnectivityStateTracker.SetState t s reason
        = ConnectivityStateTracker.SetState t s reason2) := by
  refine ⟨?_, ?_, fun reason2 => rfl⟩
  · intro h
    simp [ConnectivityStateTracker.SetState, h]
  · intro h
    refine ⟨?_, ?_, ?_, ?_, ?_⟩ <;>
      simp [ConnectivityStateTracker.SetState, h, count_map_pair]
    exact fun w st x _ _ hst => hst.symm

/-- C3 witness: two registered watchers at IDLE, SetState(READY) notifies each
exactly once of READY. -/
theorem set_state_spec_witness :
    (ConnectivityStateTracker.SetState
        { state := .idle, watchers := [1, 2] } .ready "connected").2
      = [(1, .ready), (2, .ready)] := by
  have h := ((set_state_spec { state := .idle, watchers := [1, 2] }
    .ready "connected").2.1 (by simp)).2.1
  simpa using h

/-- C4: TlsFetchKeyMaterials returns FAILED_PRECONDITION exactly when no
credential-reload capability is configured and the store's cert-pair list is
empty; in that case no reload is scheduled, the store is left unchanged, and
the reload_status out-parameter keeps its caller-supplied value. -/
theorem tls_fetch_failed_precondition_iff
    (km : grpc_tls_key_materials_config)
    (cfg : Option grpc_tls_credential_reload_config)
    (rs : grpc_ssl_certificate_config_reload_status) :
    ((TlsFetchKeyMaterials km cfg rs).status = .failed_precondition ↔
      (cfg.isNone = true ∧ km.pem_key_cert_pair_list.isEmpty = true)) ∧
    (cfg.isNone = true → km.pem_key_cert_pair_list.isEmpty = true →
      TlsFetchKeyMaterials km cfg rs =
        { status := .failed_precondition
          key_materials := km
          reload_status := rs
          reload_scheduled := false
          arg_released := false
          destroy_context_invoked := false }) := by
  cases cfg with
  | none =>
    by_cases he : km.pem_key_cert_pair_list.isEmpty <;>
      simp [TlsFetchKeyMaterials, he]
  | some f =>
    have hst : (TlsFetchKeyMaterials km (some f) rs).status ≠ .failed_precondition := by
      by_cases ha : (f km).completes_async
      · rw [tlsFetch_async_eq km f rs ha]
        by_cases he : km.pem_key_cert_pair_list.isEmpty <;> simp [he]
      · rw [tlsFetch_sync_eq km f rs (by simpa using ha)]
        rcases h : (f km).status <;>
          by_cases he : km.pem_key_cert_pair_list.isEmpty <;> simp [he]
    simp [hst]

/-- C4 witness: empty store and no reload capability. -/
theorem tls_fetch_failed_precondition_iff_witness :
    TlsFetchKeyMaterials empty_key_materials none .unchanged =
      { status := .failed_precondition
        key_materials := empty_key_materials
        reload_status := .unchanged
        reload_scheduled := false
        arg_released := false
        destroy_context_invoked := false } :=
  (tls_fetch_failed_precondition_iff empty_key_materials none .unchanged).2 rfl rfl

/-- C5: when the configured reload capability signals asynchronous completion
(Schedule returns nonzero), TlsFetchKeyMaterials returns UNIMPLEMENTED if the
store was empty at entry and OK otherwise, and it does not wait for the
asynchronous result: it returns at once with the store and the reload_status
out-parameter holding their entry values. -/
theorem tls_fetch_async_reload
    (km : grpc_tls_key_materials_config) (f : grpc_tls_credential_reload_config)
    (rs : grpc_ssl_certificate_config_reload_status)
    (hasync : (f km).completes_async = true) :
    TlsFetchKeyMaterials km (some f) rs =
      { status := if km.pem_key_cert_pair_list.isEmpty then .unimplemented else .ok
        key_materials := km
        reload_status := rs
        reload_scheduled := true
        arg_released := true
        destroy_context_invoked := (f km).has_destroy_context } :=
  tlsFetch_async_eq km f rs hasync

/-- C5 witness: asynchronous completion over a non-empty store yields OK, and
over an empty store yields UNIMPLEMENTED. -/
theorem tls_fetch_async_reload_witness :
    (TlsFetchKeyMaterials sample_key_materials (some reload_async_sample)
        .unchanged).status = .ok ∧
    (TlsFetchKeyMaterials empty_key_materials (some reload_async_sample)
        .unchanged).status = .unimplemented := by
  have h1 := tls_fetch_async_reload sample_key_materials reload_async_sample
    .unchanged rfl
  have h2 := tls_fetch_async_reload empty_key_materials reload_async_sample
    .unchanged rfl
  rw [h1, h2]
  simp [sample_key_materials, empty_key_materials]

/-- C6: when a synchronous reload completes with status FAIL,
TlsFetchKeyMaterials returns INTERNAL if the store was empty at entry and OK
otherwise (the failure is swallowed); in both cases the transient reload arg
is released and its destroy-context hook, if the capability installed one, is
invoked before returning. With existing material the connector therefore keeps
its factory: a RefreshHandshakerFactory call whose reload fails this way
returns OK without a rebuild. -/
theorem tls_fetch_sync_fail_swallowed
    (km : grpc_tls_key_materials_config) (f : grpc_tls_credential_reload_config)
    (rs : grpc_ssl_certificate_config_reload_status)
    (hsync : (f km).completes_async = false)
    (hfail : (f km).status = .fail) :
    TlsFetchKeyMaterials km (some f) rs =
      { status := if km.pem_key_cert_pair_list.isEmpty then .internal else .ok
        key_materials := (f km).new_materials
        reload_status := .fail
        reload_scheduled := true
        arg_released := true
        destroy_context_invoked := (f km).has_destroy_context } ∧
    (∀ (c : ConnectorState) (b : Bool), c.key_materials_config = km →
      km.pem_key_cert_pair_list.isEmpty = false →
      SpiffeChannelSecurityConnector.RefreshHandshakerFactory c (some f) b =
        some { status := .ok
               conn := { c with key_materials_config := (f km).new_materials }
               destroyed_old := false
               builds := 0 }) := by
  have hfetch : ∀ rs2, TlsFetchKeyMaterials km (some f) rs2 =
      { status := if km.pem_key_cert_pair_list.isEmpty then .internal else .ok
        key_materials := (f km).new_materials
        reload_status := .fail
        reload_scheduled := true
        arg_released := true
        destroy_context_invoked := (f km).has_destroy_context } := by
    intro rs2
    rw [tlsFetch_sync_eq km f rs2 hsync]
    simp [hfail]
  refine ⟨hfetch rs, ?_⟩
  intro c b hc he
  have h := refresh_reuse c (some f) b ?_ ?_
  · rw [h, hc, hfetch .unchanged]
  · rw [hc, hfetch .unchanged]
    simp [he]
  · rw [hc, hfetch .unchanged]
    simp

/-- C6 witness: synchronous FAIL over a non-empty store returns OK, releases
the arg and invokes the destroy-context hook; the refresh keeps the factory. -/
theorem tls_fetch_sync_fail_swallowed_witness :
    TlsFetchKeyMaterials sample_key_materials (some reload_fail_sample)
        .unchanged =
      { status := .ok
        key_materials := sample_key_materials
        reload_status := .fail
        reload_scheduled := true
        arg_released := true
        destroy_context_invoked := true } := by
  have h := (tls_fetch_sync_fail_swallowed sample_key_materials
    reload_fail_sample .unchanged rfl rfl).1
  rw [h]
  simp [sample_key_materials, reload_fail_sample]

/-- C2: for every RefreshHandshakerFactory call (client or server variant —
both variants computed below, with identical results) in which the reload
protocol succeeds (TlsFetchKeyMaterials returns OK, the out-parameter having
been initialized to UNCHANGED): if the resulting reload status is NEW, the
existing factory (if any) is destroyed and exactly one rebuild is performed;
for any other resulting status (UNCHANGED, or FAIL swallowed because existing
material is present, or the value left untouched by an asynchronous answer)
the existing factory is reused unchanged and no rebuild occurs. -/
theorem refresh_rebuilds_iff_new
    (c : ConnectorState) (cfg : Option grpc_tls_credential_reload_config)
    (factory_init_ok : Bool) (fetch : TlsFetchResult)
    (hfetch : fetch = TlsFetchKeyMaterials c.key_materials_config cfg .unchanged)
    (hok : fetch.status = .ok) :
    (fetch.reload_status ≠ .new →
      SpiffeChannelSecurityConnector.RefreshHandshakerFactory c cfg factory_init_ok
        = some { status := .ok
                 conn := { c with key_materials_config := fetch.key_materials }
                 destroyed_old := false
                 builds := 0 } ∧
      SpiffeServerSecurityConnector.RefreshHandshakerFactory c cfg factory_init_ok
        = some { status := .ok
                 conn := { c with key_materials_config := fetch.key_materials }
                 destroyed_old := false
                 builds := 0 }) ∧
    (fetch.reload_status = .new →
      fetch.key_materials.pem_key_cert_pair_list.isEmpty = false →
      ∃ r : FactoryOpResult,
        SpiffeChannelSecurityConnector.RefreshHandshakerFactory c cfg factory_init_ok
          = some r ∧
        SpiffeServerSecurityConnector.RefreshHandshakerFactory c cfg factory_init_ok
          = some r ∧
        r.builds = 1 ∧
        r.destroyed_old = c.handshaker_factory.isSome ∧
        r.conn.key_materials_config = fetch.key_materials ∧
        (factory_init_ok = true →
          r.status = .ok ∧ r.conn.handshaker_factory = some c.next_factory_id) ∧
        (factory_init_ok = false →
          r.status = .error ∧ r.conn.handshaker_factory = none)) := by
  subst hfetch
  constructor
  · intro hnew
    have h := refresh_reuse c cfg factory_init_ok hok hnew
    exact ⟨h, (server_refresh_eq_client c cfg factory_init_ok).trans h⟩
  · intro hnew hne
    cases factory_init_ok with
    | true =>
      refine ⟨{ status := .ok
                conn := { key_materials_config :=
                            (TlsFetchKeyMaterials c.key_materials_config cfg
                              .unchanged).key_materials
                          handshaker_factory := some c.next_factory_id
                          next_factory_id := c.next_factory_id + 1 }
                destroyed_old := c.handshaker_factory.isSome
                builds := 1 }, ?_, ?_, rfl, rfl, rfl, fun _ => ⟨rfl, rfl⟩, ?_⟩
      · simp [SpiffeChannelSecurityConnector.RefreshHandshakerFactory,
              SpiffeChannelSecurityConnector.ReplaceHandshakerFactory,
              hok, hnew, hne]
      · rw [server_refresh_eq_client]
        simp [SpiffeChannelSecurityConnector.RefreshHandshakerFactory,
              SpiffeChannelSecurityConnector.ReplaceHandshakerFactory,
              hok, hnew, hne]
      · intro hcontra
        exact Bool.noConfusion hcontra
    | false =>
      refine ⟨{ status := .error
                conn := { key_materials_config :=
                            (TlsFetchKeyMaterials c.key_materials_config cfg
                              .unchanged).key_materials
                          handshaker_factory := none
                          next_factory_id := c.next_factory_id }
                destroyed_old := c.handshaker_factory.isSome
                builds := 1 }, ?_, ?_, rfl, rfl, rfl, ?_, fun _ => ⟨rfl, rfl⟩⟩
      · simp [SpiffeChannelSecurityConnector.RefreshHandshakerFactory,
              SpiffeChannelSecurityConnector.ReplaceHandshakerFactory,
              hok, hnew, hne]
      · rw [server_refresh_eq_client]
        simp [SpiffeChannelSecurityConnector.RefreshHandshakerFactory,
              SpiffeChannelSecurityConnector.ReplaceHandshakerFactory,
              hok, hnew, hne]
      · intro hcontra
        exact Bool.noConfusion hcontra

/-- C2 witness: a reload that synchronously reports NEW on a connector holding
a factory leads to exactly one rebuild with the old factory destroyed. -/
theorem refresh_rebuilds_iff_new_witness :
    ∃ r : FactoryOpResult,
      SpiffeChannelSecurityConnector.RefreshHandshakerFactory
          { key_materials_config := empty_key_materials
            handshaker_factory := some 5
            next_factory_id := 6 }
          (some reload_new_sample) true = some r ∧
      r.builds = 1 ∧ r.destroyed_old = true := by
  obtain ⟨r, h1, _h2, hb, hd, _⟩ :=
    (refresh_rebuilds_iff_new
      { key_materials_config := empty_key_materials
        handshaker_factory := some 5
        next_factory_id := 6 }
      (some reload_new_sample) true _ rfl rfl).2 rfl rfl
  exact ⟨r, h1, hb, by simpa using hd⟩

/-- C9 evaluation: the edge case the claim itself names — no key material
configured, a reload capability configured, and the reload completing
synchronously with status UNCHANGED while leaving the store as it found it —
makes TlsFetchKeyMaterials return OK with an empty store, so
InitializeHandshakerFactory (client and server alike) proceeds to
ReplaceHandshakerFactory with an empty cert-pair list and the GPR_ASSERT
non-emptiness assertion fires (the `none` outcome). The claimed invariant is
therefore violated by the code on exactly that path. -/
theorem init_assertion_fires_on_sync_unchanged_empty :
    SpiffeChannelSecurityConnector.InitializeHandshakerFactory none
      { key_materials_config := empty_key_materials
        handshaker_factory := none
        next_factory_id := 0 }
      (some reload_unchanged_noop) true = none ∧
    SpiffeServerSecurityConnector.InitializeHandshakerFactory none
      { key_materials_config := empty_key_materials
        handshaker_factory := none
        next_factory_id := 0 }
      (some reload_unchanged_noop) true = none ∧
    (TlsFetchKeyMaterials empty_key_materials (some reload_unchanged_noop)
        .unchanged).status = .ok := ⟨rfl, rfl, rfl⟩

/-- C10: TlsFetchKeyMaterials writes its reload_status out-parameter only on
the synchronous-completion path: with no capability configured, or with a
capability that signals asynchronous completion, the out-parameter keeps its
caller-supplied value. Consequently a RefreshHandshakerFactory call whose
reload capability answers asynchronously over non-empty existing material
returns OK and reuses the existing factory without a rebuild (the connector
state is returned untouched). -/
theorem reload_status_untouched_without_sync_completion
    (km : grpc_tls_key_materials_config) (f : grpc_tls_credential_reload_config)
    (rs : grpc_ssl_certificate_config_reload_status)
    (hasync : (f km).completes_async = true) :
    (TlsFetchKeyMaterials km none rs).reload_status = rs ∧
    (TlsFetchKeyMaterials km (some f) rs).reload_status = rs ∧
    (∀ (c : ConnectorState) (b : Bool), c.key_materials_config = km →
      km.pem_key_cert_pair_list.isEmpty = false →
      SpiffeChannelSecurityConnector.RefreshHandshakerFactory c (some f) b =
        some { status := .ok, conn := c, destroyed_old := false, builds := 0 }) := by
  refine ⟨?_, ?_, ?_⟩
  · by_cases he : km.pem_key_cert_pair_list.isEmpty <;>
      simp [TlsFetchKeyMaterials, he]
  · rw [tlsFetch_async_eq km f rs hasync]
  · intro c b hc he
    subst hc
    have hfetch := tlsFetch_async_eq c.key_materials_config f .unchanged hasync
    have h := refresh_reuse c (some f) b ?_ ?_
    · rw [h, hfetch]
    · rw [hfetch]
      simp [he]
    · rw [hfetch]
      simp

/-- C10 witness: an asynchronous answer over a one-entry store leaves the
connector untouched with status OK. -/
theorem reload_status_untouched_witness :
    SpiffeChannelSecurityConnector.RefreshHandshakerFactory
        { key_materials_config := sample_key_materials
          handshaker_factory := some 3
          next_factory_id := 4 }
        (some reload_async_sample) true =
      some { status := .ok
             conn := { key_materials_config := sample_key_materials
                       handshaker_factory := some 3
                       next_factory_id := 4 }
             destroyed_old := false
             builds := 0 } := by
  have h := (reload_status_untouched_without_sync_completion sample_key_materials
      reload_async_sample .unchanged rfl).2.2
    { key_materials_config := sample_key_materials
      handshaker_factory := some 3
      next_factory_id := 4 } true rfl (by simp [sample_key_materials])
  simpa using h
